import Mathlib

/-!
# Verification of the alertmatter Alertmanager → Mattermost bridge

A shallow embedding of `handlers.go` of mr-karan/alertmatter: the payload
and message data model, the pure formatting step (`prepareMessage`,
`convertAlertToFields`, `setColor`), the forwarding step
(`sendToMattermost`, with the network response abstracted as an explicit
argument), and the HTTP handler (`handleAlert`, with the request method,
query parameter, body-decoding outcome and downstream response as explicit
arguments).  Go maps are embedded as association lists whose list order is
the map's iteration order; a valid map has no duplicate keys.
-/

namespace Alertmatter

/-! ## Data model (`handlers.go`, type declarations and constants) -/

/-- `colorFiring` of `handlers.go`. -/
def colorFiring : String := "#FF0000"

/-- `colorResolved` of `handlers.go`. -/
def colorResolved : String := "#008000"

/-- `colorExpired` of `handlers.go`. -/
def colorExpired : String := "#F0F8FF"

/-- One alert of the inbound payload (`Alert` of `handlers.go`).  The two
`map[string]string` fields are embedded as association lists in iteration
order. -/
structure Alert where
  status : String
  labels : List (String × String)
  annotations : List (String × String)
  startsAt : String
  endsAt : String
  generatorURL : String
  fingerprint : String
  deriving DecidableEq

/-- The inbound payload (`AlertmanagerPayload` of `handlers.go`). -/
structure AlertmanagerPayload where
  receiver : String
  status : String
  alerts : List Alert
  groupLabels : List (String × String)
  commonLabels : List (String × String)
  commonAnnotations : List (String × String)
  externalURL : String
  version : String
  groupKey : String
  truncatedAlerts : Int
  deriving DecidableEq

/-- A single field of an attachment (`Field` of `handlers.go`). -/
structure Field where
  title : String
  value : String
  short : Bool
  deriving DecidableEq

/-- A message attachment (`Attachment` of `handlers.go`).  The Go composite
literal `Attachment{Color: …, Fields: …}` leaves the other fields at their
zero value `""`, which the default values reproduce. -/
structure Attachment where
  color : String
  text : String := ""
  title : String := ""
  titleLink : String := ""
  fields : List Field
  deriving DecidableEq

/-- The outbound message (`MattermostMessage` of `handlers.go`). -/
structure MattermostMessage where
  text : String := ""
  username : String
  iconEmoji : String
  attachments : List Attachment
  channel : String
  deriving DecidableEq

/-! ## Formatting (`setColor`, `convertAlertToFields`, `prepareMessage`) -/

/-- `setColor` of `handlers.go`: the `switch` on the alert status. -/
def setColor (status : String) : String :=
  if status = "firing" then colorFiring
  else if status = "resolved" then colorResolved
  else colorExpired

/-- Model of Go's `strings.ToUpper` (the per-character simple case
mapping), written by structural recursion over the characters. -/
def toUpperString (s : String) : String :=
  String.mk (s.data.map Char.toUpper)

/-- Split a character list at every space (the word boundaries Go's
segmenter sees in these ASCII keys). -/
def splitOnSpace : List Char → List (List Char)
  | [] => [[]]
  | c :: rest =>
    match splitOnSpace rest with
    | [] => [[c]]
    | w :: ws => if c = ' ' then [] :: w :: ws else (c :: w) :: ws

/-- Uppercase the first character of a word, leave the rest unchanged. -/
def upperFirstChars : List Char → List Char
  | [] => []
  | c :: cs => Char.toUpper c :: cs

/-- Rejoin words with single spaces. -/
def intercalateSpace : List (List Char) → List Char
  | [] => []
  | [w] => w
  | w :: ws => w ++ ' ' :: intercalateSpace ws

/-- Model of Go's `cases.Title(language.Und, cases.NoLower).String`:
the first letter of every (space-separated) word is uppercased and, with
`cases.NoLower`, the remaining letters are kept as they are. -/
def titleCase (s : String) : String :=
  String.mk (intercalateSpace (List.map upperFirstChars (splitOnSpace s.data)))

/-- `convertAlertToFields` of `handlers.go`.

The argument `ago` stands for the string
`durafmt.Parse(time.Since(time.Now())).LimitFirstN(2).String()`: the source
reads the wall clock, so the formatted elapsed-time string (always the
rendering of a near-zero duration, as flagged in the spec's design notes) is
abstracted as an explicit argument, used at each of its occurrences.

`alert.Annotations[k]` (a Go map read) is `(alert.annotations.lookup k).getD ""`:
on a map without duplicate keys the two agree, and a key taken from the map
itself is always present.  Each `fmt.Sprintf("%s…", msg, …)` step appends
one block of text to the accumulator `msg`. -/
def convertAlertToFields (alert : Alert) (externalURL receiver : String)
    (ago : String) : List Field :=
  let statusMsg := if alert.status = "firing"
    then ":fire: " ++ toUpperString alert.status ++ " :fire:"
    else toUpperString alert.status
  let annotationKeys := List.insertionSort (· ≤ ·) (List.map Prod.fst alert.annotations)
  let msg := annotationKeys.foldl
    (fun m k =>
      m ++ ("**" ++ titleCase k ++ ":** " ++ ((alert.annotations.lookup k).getD "") ++ "\n"))
    ""
  let msg := msg ++ ("**Started at:** " ++ alert.startsAt ++ " (" ++ ago ++ " ago)\n")
  let msg := if alert.status = "resolved"
    then msg ++ ("**Ended at:** " ++ alert.endsAt ++ " (" ++ ago ++ " ago)\n")
    else msg
  let msg := msg ++ ("Generated by a [Prometheus Alert](" ++ alert.generatorURL ++
    ") and sent to the [Alertmanager](" ++ externalURL ++ ") '" ++ receiver ++ "' receiver.")
  let labelsMsg := alert.labels.foldl
    (fun m kv => m ++ ("**" ++ titleCase kv.1 ++ ":** " ++ kv.2 ++ "\n"))
    ""
  [{ title := statusMsg, value := msg, short := true },
   { title := "", value := labelsMsg, short := true }]

/-- `prepareMessage` of `handlers.go`: one attachment per alert, appended in
order, then the fixed username, icon and the request's channel. -/
def prepareMessage (payload : AlertmanagerPayload) (channel : String)
    (ago : String) : MattermostMessage :=
  let attachments := payload.alerts.foldl
    (fun acc alert =>
      acc ++ [{ color := setColor alert.status
              , fields := convertAlertToFields alert payload.externalURL payload.receiver ago
              : Attachment }])
    []
  { attachments := attachments, username := "alertmatter", iconEmoji := ":bell:",
    channel := channel }

/-! ## Forwarding and the HTTP handler -/

/-- The destination's HTTP response: its numeric status code and its status
text (Go's `resp.Status`, e.g. "200 OK"). -/
structure HttpResponse where
  statusCode : Nat
  status : String
  deriving DecidableEq

/-- `sendToMattermost` of `handlers.go`.  The outcome of
`http.Post(url, "application/json", …)` is abstracted as the argument
`downstream`: `.error e` is a transport error with message `e`, `.ok resp`
a delivered response.  (`json.Marshal` cannot fail on `MattermostMessage`
data — strings, booleans and slices only — so its error branch is dead and
not modelled.)  The source then errors exactly when the status code differs
from `http.StatusOK` (200). -/
def sendToMattermost (mmMessage : MattermostMessage)
    (downstream : Except String HttpResponse) : Except String Unit :=
  match downstream with
  | .error e => .error e
  | .ok resp =>
    if resp.statusCode ≠ 200 then
      .error ("received non-OK response from Mattermost: " ++ resp.status)
    else
      .ok ()

/-- The observable outcome of one call of the handler: the response status
code and body written to `w`, and the outbound message handed to
`sendToMattermost` (`none` when no outbound POST was attempted). -/
structure HandlerResult where
  statusCode : Nat
  body : String
  sent : Option MattermostMessage
  deriving DecidableEq

/-- Go's `http.Error(w, msg, code)`: it writes `msg` followed by a newline
as the body. -/
def httpError (msg : String) (code : Nat) : HandlerResult :=
  { statusCode := code, body := msg ++ "\n", sent := none }

/-- `handleAlert` of `handlers.go`.  The request is abstracted as: its
`method`; the `channel` query parameter (Go's `Query().Get` returns `""`
when the parameter is absent, so absence and emptiness coincide); `decoded`,
the outcome of `json.NewDecoder(r.Body).Decode(&payload)`; and `downstream`,
the outcome of the outbound POST (used only if one is attempted). -/
def handleAlert (method : String) (channel : String)
    (decoded : Except String AlertmanagerPayload) (ago : String)
    (downstream : Except String HttpResponse) : HandlerResult :=
  if method ≠ "POST" then
    httpError "Method Not Allowed" 405
  else if channel = "" then
    httpError "channel query parameter is required" 400
  else
    match decoded with
    | .error e => httpError e 400
    | .ok payload =>
      let mmMessage := prepareMessage payload channel ago
      match sendToMattermost mmMessage downstream with
      | .error e => { statusCode := 500, body := e ++ "\n", sent := some mmMessage }
      | .ok _ => { statusCode := 200, body := "", sent := some mmMessage }

/-! ## Named building blocks of the formatted output

These definitions name the sub-expressions of `convertAlertToFields` and
`prepareMessage`; `convertAlertToFields_eq` and `prepareMessage_eq` below
prove that the transcribed source functions compute exactly these blocks. -/

/-- Concatenation of a list of text blocks. -/
def concatStrings : List String → String
  | [] => ""
  | s :: rest => s ++ concatStrings rest

/-- The line emitted for the annotation key `k` of `alert`. -/
def annotationLine (alert : Alert) (k : String) : String :=
  "**" ++ titleCase k ++ ":** " ++ ((alert.annotations.lookup k).getD "") ++ "\n"

/-- The alert's annotation keys in the order the source emits them:
collected from the map and sorted (`sort.Strings`). -/
def sortedAnnotationKeys (alert : Alert) : List String :=
  List.insertionSort (· ≤ ·) (List.map Prod.fst alert.annotations)

/-- The block of annotation lines of the primary field. -/
def annotationsBlock (alert : Alert) : String :=
  concatStrings ((sortedAnnotationKeys alert).map (annotationLine alert))

/-- The line emitted for one label key-value pair. -/
def labelLine (kv : String × String) : String :=
  "**" ++ titleCase kv.1 ++ ":** " ++ kv.2 ++ "\n"

/-- The value of the secondary (labels) field: one line per label, in the
iteration order of the label map. -/
def labelsBlock (alert : Alert) : String :=
  concatStrings (alert.labels.map labelLine)

/-- The title of the primary field: the uppercased status, wrapped in fire
indicators exactly when the status is `"firing"`. -/
def primaryTitle (alert : Alert) : String :=
  if alert.status = "firing" then ":fire: " ++ toUpperString alert.status ++ " :fire:"
  else toUpperString alert.status

/-- The "Started at" line of the primary field. -/
def startedLine (alert : Alert) (ago : String) : String :=
  "**Started at:** " ++ alert.startsAt ++ " (" ++ ago ++ " ago)\n"

/-- The "Ended at" line of the primary field. -/
def endedLine (alert : Alert) (ago : String) : String :=
  "**Ended at:** " ++ alert.endsAt ++ " (" ++ ago ++ " ago)\n"

/-- The trailing sentence of the primary field, linking the generator URL
and the Alertmanager external URL and naming the receiver. -/
def sourceSentence (alert : Alert) (externalURL receiver : String) : String :=
  "Generated by a [Prometheus Alert](" ++ alert.generatorURL ++
  ") and sent to the [Alertmanager](" ++ externalURL ++ ") '" ++ receiver ++ "' receiver."

/-- The value of the primary field: sorted annotation lines, the
"Started at" line, the "Ended at" line exactly when the status is
`"resolved"`, then the trailing sentence. -/
def primaryValue (alert : Alert) (externalURL receiver ago : String) : String :=
  annotationsBlock alert ++ startedLine alert ago ++
  (if alert.status = "resolved" then endedLine alert ago else "") ++
  sourceSentence alert externalURL receiver

/-- The attachment `prepareMessage` builds for one alert. -/
def alertAttachment (externalURL receiver ago : String) (alert : Alert) : Attachment :=
  { color := setColor alert.status
  , fields := convertAlertToFields alert externalURL receiver ago }

/-! ## JSON serialization of the outbound message

A model of Go's `json.Marshal` on `MattermostMessage`: struct fields in
declaration order under their tags, no added whitespace, strings escaped
with Go's default HTML-safe escaping. -/

/-- The lowercase hexadecimal digit for `n < 16`. -/
def hexDigit (n : Nat) : Char :=
  if n < 10 then Char.ofNat (48 + n) else Char.ofNat (87 + n)

/-- One character of a Go-marshalled JSON string: `\"`, `\\`, `\n`, `\r`,
`\t`, `\u00XX` for other control characters, and (Go's HTML-safe default)
`<`, `>`, `&` for angle brackets and ampersand. -/
def jsonEscapeChar (c : Char) : String :=
  if c = '"' then "\\\""
  else if c = '\\' then "\\\\"
  else if c = '\n' then "\\n"
  else if c = '\r' then "\\r"
  else if c = '\t' then "\\t"
  else if c = '<' then "\\u003c"
  else if c = '>' then "\\u003e"
  else if c = '&' then "\\u0026"
  else if c.toNat < 32 then
    "\\u00" ++ String.mk [hexDigit (c.toNat / 16), hexDigit (c.toNat % 16)]
  else String.singleton c

/-- A JSON string literal for `s`. -/
def jstr (s : String) : String :=
  "\"" ++ concatStrings (s.data.map jsonEscapeChar) ++ "\""

/-- A JSON boolean. -/
def jbool (b : Bool) : String :=
  if b then "true" else "false"

/-- A JSON array from already-serialized elements. -/
def jarr (xs : List String) : String :=
  "[" ++ String.intercalate "," xs ++ "]"

/-- `json.Marshal` of a `Field`. -/
def fieldToJson (f : Field) : String :=
  "\x7b" ++ jstr "title" ++ ":" ++ jstr f.title ++ "," ++
  jstr "value" ++ ":" ++ jstr f.value ++ "," ++
  jstr "short" ++ ":" ++ jbool f.short ++ "\x7d"

/-- `json.Marshal` of an `Attachment`. -/
def attachmentToJson (a : Attachment) : String :=
  "\x7b" ++ jstr "color" ++ ":" ++ jstr a.color ++ "," ++
  jstr "text" ++ ":" ++ jstr a.text ++ "," ++
  jstr "title" ++ ":" ++ jstr a.title ++ "," ++
  jstr "title_link" ++ ":" ++ jstr a.titleLink ++ "," ++
  jstr "fields" ++ ":" ++ jarr (a.fields.map fieldToJson) ++ "\x7d"

/-- `json.Marshal` of a `MattermostMessage`: the bytes `sendToMattermost`
POSTs to the destination. -/
def mattermostMessageToJson (m : MattermostMessage) : String :=
  "\x7b" ++ jstr "text" ++ ":" ++ jstr m.text ++ "," ++
  jstr "username" ++ ":" ++ jstr m.username ++ "," ++
  jstr "icon_emoji" ++ ":" ++ jstr m.iconEmoji ++ "," ++
  jstr "attachments" ++ ":" ++ jarr (m.attachments.map attachmentToJson) ++ "," ++
  jstr "channel" ++ ":" ++ jstr m.channel ++ "\x7d"

/-! ## The body decoder

A model of Go's `encoding/json` `Decode` into `AlertmanagerPayload`, for
well-formed JSON bodies (a syntactically malformed body is a decode error
before any value exists and stays abstract).  The stdlib semantics
embedded here: JSON `null` into any value is a no-op (the value keeps its
previous — initially zero — contents); an object's members are applied in
order to the zero value, a member whose key matches no field tag (Go
matches tags case-insensitively) is ignored; a type mismatch is an error. -/

/-- The zero value of `Alert`. -/
def zeroAlert : Alert :=
  { status := "", labels := [], annotations := [], startsAt := "", endsAt := "",
    generatorURL := "", fingerprint := "" }

/-- The zero value of `AlertmanagerPayload`. -/
def zeroPayload : AlertmanagerPayload :=
  { receiver := "", status := "", alerts := [], groupLabels := [], commonLabels := [],
    commonAnnotations := [], externalURL := "", version := "", groupKey := "",
    truncatedAlerts := 0 }

/-- A well-formed JSON value. -/
inductive Json where
  | null
  | bool (b : Bool)
  | num (n : Int)
  | str (s : String)
  | arr (elems : List Json)
  | obj (members : List (String × Json))

/-- Does the object key `k` select the field with json tag `tag`?  Go
prefers an exact match but accepts a case-insensitive one; no two tags of
these structs collide case-insensitively, so the two rules coincide. -/
def tagMatch (k tag : String) : Bool :=
  k == tag || k.toLower == tag.toLower

/-- Unmarshal a JSON value into a string field holding `cur`. -/
def decodeStringInto (cur : String) : Json → Except String String
  | .null => .ok cur
  | .str s => .ok s
  | _ => .error "json: cannot unmarshal value into Go value of type string"

/-- Unmarshal a JSON value into a `map[string]string` field holding `cur`. -/
def decodeStringMapInto (cur : List (String × String)) :
    Json → Except String (List (String × String))
  | .null => .ok cur
  | .obj members =>
    members.mapM (fun kv => do
      let s ← decodeStringInto "" kv.2
      pure (kv.1, s))
  | _ => .error "json: cannot unmarshal value into Go value of type map[string]string"

/-- Unmarshal a JSON value into an int field holding `cur`. -/
def decodeIntInto (cur : Int) : Json → Except String Int
  | .null => .ok cur
  | .num n => .ok n
  | _ => .error "json: cannot unmarshal value into Go value of type int"

/-- Apply one object member to an `Alert` being decoded. -/
def setAlertField (a : Alert) (k : String) (v : Json) : Except String Alert :=
  if tagMatch k "status" then do
    let s ← decodeStringInto a.status v
    pure { a with status := s }
  else if tagMatch k "labels" then do
    let m ← decodeStringMapInto a.labels v
    pure { a with labels := m }
  else if tagMatch k "annotations" then do
    let m ← decodeStringMapInto a.annotations v
    pure { a with annotations := m }
  else if tagMatch k "startsAt" then do
    let s ← decodeStringInto a.startsAt v
    pure { a with startsAt := s }
  else if tagMatch k "endsAt" then do
    let s ← decodeStringInto a.endsAt v
    pure { a with endsAt := s }
  else if tagMatch k "generatorURL" then do
    let s ← decodeStringInto a.generatorURL v
    pure { a with generatorURL := s }
  else if tagMatch k "fingerprint" then do
    let s ← decodeStringInto a.fingerprint v
    pure { a with fingerprint := s }
  else
    pure a

/-- Unmarshal a JSON value into one `Alert`. -/
def decodeAlert : Json → Except String Alert
  | .null => .ok zeroAlert
  | .obj members => members.foldlM (fun a kv => setAlertField a kv.1 kv.2) zeroAlert
  | _ => .error "json: cannot unmarshal value into Go value of type main.Alert"

/-- Unmarshal a JSON value into the `[]Alert` field holding `cur`. -/
def decodeAlertListInto (cur : List Alert) : Json → Except String (List Alert)
  | .null => .ok cur
  | .arr elems => elems.mapM decodeAlert
  | _ => .error "json: cannot unmarshal value into Go value of type []main.Alert"

/-- Apply one object member to an `AlertmanagerPayload` being decoded. -/
def setPayloadField (p : AlertmanagerPayload) (k : String) (v : Json) :
    Except String AlertmanagerPayload :=
  if tagMatch k "receiver" then do
    let s ← decodeStringInto p.receiver v
    pure { p with receiver := s }
  else if tagMatch k "status" then do
    let s ← decodeStringInto p.status v
    pure { p with status := s }
  else if tagMatch k "alerts" then do
    let l ← decodeAlertListInto p.alerts v
    pure { p with alerts := l }
  else if tagMatch k "groupLabels" then do
    let m ← decodeStringMapInto p.groupLabels v
    pure { p with groupLabels := m }
  else if tagMatch k "commonLabels" then do
    let m ← decodeStringMapInto p.commonLabels v
    pure { p with commonLabels := m }
  else if tagMatch k "commonAnnotations" then do
    let m ← decodeStringMapInto p.commonAnnotations v
    pure { p with commonAnnotations := m }
  else if tagMatch k "externalURL" then do
    let s ← decodeStringInto p.externalURL v
    pure { p with externalURL := s }
  else if tagMatch k "version" then do
    let s ← decodeStringInto p.version v
    pure { p with version := s }
  else if tagMatch k "groupKey" then do
    let s ← decodeStringInto p.groupKey v
    pure { p with groupKey := s }
  else if tagMatch k "truncatedAlerts" then do
    let n ← decodeIntInto p.truncatedAlerts v
    pure { p with truncatedAlerts := n }
  else
    pure p

/-- `json.NewDecoder(r.Body).Decode(&payload)` on a well-formed body. -/
def decodeAlertmanagerPayload : Json → Except String AlertmanagerPayload
  | .null => .ok zeroPayload
  | .obj members => members.foldlM (fun p kv => setPayloadField p kv.1 kv.2) zeroPayload
  | _ => .error "json: cannot unmarshal value into Go value of type main.AlertmanagerPayload"

/-- The json tags of `AlertmanagerPayload`'s fields. -/
def payloadTags : List String :=
  ["receiver", "status", "alerts", "groupLabels", "commonLabels",
   "commonAnnotations", "externalURL", "version", "groupKey", "truncatedAlerts"]

/-! ## Concrete inputs used by witnesses and counterexamples -/

/-- The spec's example alert (§8). -/
def sampleAlert : Alert :=
  { status := "firing", labels := [("alertname", "HighCPU")],
    annotations := [("summary", "CPU high")], startsAt := "2024-01-01T00:00:00Z",
    endsAt := "", generatorURL := "http://x", fingerprint := "abc" }

/-- The spec's example payload (§8). -/
def samplePayload : AlertmanagerPayload :=
  { receiver := "r1", status := "firing", alerts := [sampleAlert], groupLabels := [],
    commonLabels := [], commonAnnotations := [], externalURL := "http://am",
    version := "4", groupKey := "", truncatedAlerts := 0 }

/-- An alert whose label map has two entries, enumerated a-first. -/
def twoLabelAlertAB : Alert :=
  { status := "firing", labels := [("a", "1"), ("b", "2")], annotations := [],
    startsAt := "", endsAt := "", generatorURL := "", fingerprint := "" }

/-- The same label map as `twoLabelAlertAB`, enumerated b-first. -/
def twoLabelAlertBA : Alert :=
  { twoLabelAlertAB with labels := [("b", "2"), ("a", "1")] }

/-- A payload holding `twoLabelAlertAB`. -/
def twoLabelPayloadAB : AlertmanagerPayload :=
  { zeroPayload with alerts := [twoLabelAlertAB] }

/-- The same notification as `twoLabelPayloadAB` with the other label
enumeration order. -/
def twoLabelPayloadBA : AlertmanagerPayload :=
  { zeroPayload with alerts := [twoLabelAlertBA] }




/-- An alert whose annotation map has two entries, enumerated b-first. -/
def twoAnnotationsAlert : Alert :=
  { zeroAlert with annotations := [("b", "2"), ("a", "1")] }

/-- The same annotation map as `twoAnnotationsAlert`, enumerated a-first. -/
def twoAnnotationsAlertSwapped : Alert :=
  { twoAnnotationsAlert with annotations := [("a", "1"), ("b", "2")] }

/-- A payload holding `twoAnnotationsAlert`. -/
def twoAnnotationsPayload : AlertmanagerPayload :=
  { zeroPayload with alerts := [twoAnnotationsAlert] }

/-- The same notification as `twoAnnotationsPayload` with the other
annotation enumeration order. -/
def twoAnnotationsPayloadSwapped : AlertmanagerPayload :=
  { zeroPayload with alerts := [twoAnnotationsAlertSwapped] }

/-- Two embedded alerts denote the same alert record up to annotation
enumeration order: every scalar field and the label enumeration agree, and
the annotation lists enumerate the same (duplicate-free) map. -/
def alertsAgreeUpToAnnotationOrder (a b : Alert) : Prop :=
  a.status = b.status ∧ a.labels = b.labels
  ∧ (List.map Prod.fst a.annotations).Nodup ∧ a.annotations.Perm b.annotations
  ∧ a.startsAt = b.startsAt ∧ a.endsAt = b.endsAt
  ∧ a.generatorURL = b.generatorURL ∧ a.fingerprint = b.fingerprint

/-- Two embedded payloads denote the same notification up to annotation
enumeration order (the fields `prepareMessage` reads, alert by alert). -/
def payloadsAgreeUpToAnnotationOrder (p q : AlertmanagerPayload) : Prop :=
  p.receiver = q.receiver ∧ p.externalURL = q.externalURL
  ∧ List.Forall₂ alertsAgreeUpToAnnotationOrder p.alerts q.alerts

/-! ## Helper lemmas -/

theorem foldl_append_blocks {α : Type} (g : α → String) (l : List α) (s : String) :
    l.foldl (fun m k => m ++ g k) s = s ++ concatStrings (l.map g) := by
  induction l generalizing s with
  | nil => simp [concatStrings, String.append_empty]
  | cons a l ih => simp [concatStrings, ih, String.append_assoc]

theorem foldl_append_singleton {α β : Type} (f : α → β) (l : List α) (acc : List β) :
    l.foldl (fun acc a => acc ++ [f a]) acc = acc ++ l.map f := by
  induction l generalizing acc with
  | nil => simp
  | cons a l ih => simp [ih]

theorem convertAlertToFields_eq (alert : Alert) (externalURL receiver ago : String) :
    convertAlertToFields alert externalURL receiver ago =
      [{ title := primaryTitle alert, value := primaryValue alert externalURL receiver ago,
         short := true },
       { title := "", value := labelsBlock alert, short := true }] := by
  unfold convertAlertToFields primaryValue primaryTitle annotationsBlock labelsBlock
    sortedAnnotationKeys startedLine endedLine sourceSentence annotationLine labelLine
  simp only [foldl_append_blocks]
  by_cases h : alert.status = "resolved" <;>
    simp [h, String.empty_append, String.append_empty, String.append_assoc]

theorem prepareMessage_eq (payload : AlertmanagerPayload) (channel ago : String) :
    prepareMessage payload channel ago =
      { text := "", username := "alertmatter", iconEmoji := ":bell:",
        attachments := payload.alerts.map
          (alertAttachment payload.externalURL payload.receiver ago),
        channel := channel } := by
  unfold prepareMessage alertAttachment
  simp only [foldl_append_singleton]
  simp


theorem insertionSort_eq_of_perm {l₁ l₂ : List String} (p : l₁.Perm l₂) :
    List.insertionSort (· ≤ ·) l₁ = List.insertionSort (· ≤ ·) l₂ :=
  List.eq_of_perm_of_sorted
    ((List.perm_insertionSort _ l₁).trans (p.trans (List.perm_insertionSort _ l₂).symm))
    (List.sorted_insertionSort _ l₁) (List.sorted_insertionSort _ l₂)

theorem sortedAnnotationKeys_sorted_le (alert : Alert) :
    List.Sorted (· ≤ ·) (sortedAnnotationKeys alert) :=
  List.sorted_insertionSort _ _

theorem sortedAnnotationKeys_perm (alert : Alert) :
    (sortedAnnotationKeys alert).Perm (List.map Prod.fst alert.annotations) :=
  List.perm_insertionSort _ _

theorem sortedAnnotationKeys_sorted_lt (alert : Alert)
    (nd : (List.map Prod.fst alert.annotations).Nodup) :
    List.Sorted (· < ·) (sortedAnnotationKeys alert) :=
  (sortedAnnotationKeys_sorted_le alert).lt_of_le
    (((sortedAnnotationKeys_perm alert).nodup_iff).mpr nd)

theorem lookup_eq_of_perm :
    ∀ {l₁ l₂ : List (String × String)}, l₁.Perm l₂ →
      (List.map Prod.fst l₁).Nodup → ∀ k : String, l₁.lookup k = l₂.lookup k := by
  intro l₁ l₂ p
  induction p with
  | nil => intro _ _; rfl
  | cons x _ ih =>
    intro nd k
    obtain ⟨a, b⟩ := x
    rw [List.lookup_cons, List.lookup_cons]
    cases h : k == a
    · exact ih nd.of_cons k
    · rfl
  | swap x y l =>
    intro nd k
    obtain ⟨a, b⟩ := x
    obtain ⟨c, d⟩ := y
    have hca : c ≠ a := by
      simp only [List.map_cons, List.nodup_cons, List.mem_cons] at nd
      exact fun h => nd.1 (Or.inl h)
    rw [List.lookup_cons, List.lookup_cons, List.lookup_cons, List.lookup_cons]
    cases hc : k == c <;> cases ha : k == a <;> simp_all
  | trans p₁ p₂ ih₁ ih₂ =>
    intro nd k
    exact (ih₁ nd k).trans (ih₂ (((p₁.map Prod.fst).nodup_iff).mp nd) k)

theorem annotationsBlock_perm (alert : Alert) (anns₂ : List (String × String))
    (nd : (List.map Prod.fst alert.annotations).Nodup)
    (p : alert.annotations.Perm anns₂) :
    annotationsBlock { alert with annotations := anns₂ } = annotationsBlock alert := by
  unfold annotationsBlock sortedAnnotationKeys annotationLine
  rw [show ({ alert with annotations := anns₂ } : Alert).annotations = anns₂ from rfl,
    ← insertionSort_eq_of_perm (p.map Prod.fst)]
  apply congrArg
  apply List.map_congr_left
  intro k _
  rw [lookup_eq_of_perm p nd k]

theorem convertAlertToFields_annotations_perm (alert : Alert)
    (anns₂ : List (String × String))
    (nd : (List.map Prod.fst alert.annotations).Nodup)
    (p : alert.annotations.Perm anns₂) (externalURL receiver ago : String) :
    convertAlertToFields { alert with annotations := anns₂ } externalURL receiver ago
      = convertAlertToFields alert externalURL receiver ago := by
  rw [convertAlertToFields_eq, convertAlertToFields_eq,
    show primaryValue { alert with annotations := anns₂ } externalURL receiver ago
        = annotationsBlock { alert with annotations := anns₂ } ++ startedLine alert ago ++
          (if alert.status = "resolved" then endedLine alert ago else "") ++
          sourceSentence alert externalURL receiver from rfl,
    annotationsBlock_perm alert anns₂ nd p]
  rfl


/-- C1: for every inbound payload with N alerts, the prepared message has
exactly N attachments, the i-th produced from the i-th alert. -/
theorem prepareMessage_attachment_count_and_order
    (payload : AlertmanagerPayload) (channel ago : String) :
    (prepareMessage payload channel ago).attachments.length = payload.alerts.length
    ∧ ∀ i : Nat, (prepareMessage payload channel ago).attachments[i]?
        = (payload.alerts[i]?).map
            (alertAttachment payload.externalURL payload.receiver ago) := by
  rw [prepareMessage_eq]
  exact ⟨by simp, fun i => by simp⟩

/-- C2 counterexample: 204 No Content is a 2xx status, yet `sendToMattermost`
reports it as an error (the source compares against 200, not the 2xx range). -/
theorem sendToMattermost_rejects_204 :
    (200 ≤ 204 ∧ 204 < 300)
    ∧ sendToMattermost
        { username := "alertmatter", iconEmoji := ":bell:", attachments := [], channel := "ops" }
        (.ok { statusCode := 204, status := "204 No Content" })
      = .error "received non-OK response from Mattermost: 204 No Content" :=
  ⟨by decide, rfl⟩

/-- C2 (amended): forwarding errors exactly on transport failure or a
non-200 status; on a non-200 response the handler returns 500 with the
destination's status text in the body, on a 200 response it succeeds. -/
theorem sendToMattermost_non200_and_handler_500
    (method channel ago : String) (payload : AlertmanagerPayload)
    (hm : method = "POST") (hc : channel ≠ "") :
    (∀ downstream, sendToMattermost (prepareMessage payload channel ago) downstream = .ok ()
        ↔ ∃ resp : HttpResponse, downstream = .ok resp ∧ resp.statusCode = 200)
    ∧ (∀ e, handleAlert method channel (.ok payload) ago (.error e)
        = { statusCode := 500, body := e ++ "\n",
            sent := some (prepareMessage payload channel ago) })
    ∧ (∀ resp : HttpResponse, resp.statusCode ≠ 200 →
        handleAlert method channel (.ok payload) ago (.ok resp)
          = { statusCode := 500,
              body := "received non-OK response from Mattermost: " ++ resp.status ++ "\n",
              sent := some (prepareMessage payload channel ago) })
    ∧ (∀ resp : HttpResponse, resp.statusCode = 200 →
        handleAlert method channel (.ok payload) ago (.ok resp)
          = { statusCode := 200, body := "",
              sent := some (prepareMessage payload channel ago) }) := by
  subst hm
  refine ⟨fun downstream => ?_, fun e => ?_, fun resp hr => ?_, fun resp hr => ?_⟩
  · cases downstream with
    | error e => simp [sendToMattermost]
    | ok resp => by_cases h : resp.statusCode = 200 <;> simp [sendToMattermost, h]
  · simp [handleAlert, hc, sendToMattermost]
  · simp [handleAlert, hc, sendToMattermost, hr]
  · simp [handleAlert, hc, sendToMattermost, hr]

theorem sendToMattermost_non200_and_handler_500_witness :
    handleAlert "POST" "ops" (.ok zeroPayload) "0s"
        (.ok { statusCode := 404, status := "404 Not Found" })
      = { statusCode := 500, body := "received non-OK response from Mattermost: 404 Not Found\n",
          sent := some (prepareMessage zeroPayload "ops" "0s") } :=
  (sendToMattermost_non200_and_handler_500 "POST" "ops" "0s" zeroPayload rfl
    (by decide)).2.2.1 { statusCode := 404, status := "404 Not Found" } (by decide)

/-- C3: non-POST gives 405, POST without channel gives 400, POST with a
decode failure gives 400 with the failure reason; in all three cases no
outbound POST is made. -/
theorem handleAlert_client_errors_no_downstream
    (method channel ago : String) (decoded : Except String AlertmanagerPayload)
    (downstream : Except String HttpResponse) :
    (method ≠ "POST" →
      handleAlert method channel decoded ago downstream
        = { statusCode := 405, body := "Method Not Allowed\n", sent := none })
    ∧ (channel = "" →
      handleAlert "POST" channel decoded ago downstream
        = { statusCode := 400, body := "channel query parameter is required\n", sent := none })
    ∧ (∀ e, channel ≠ "" →
      handleAlert "POST" channel (.error e) ago downstream
        = { statusCode := 400, body := e ++ "\n", sent := none }) := by
  refine ⟨fun hm => ?_, fun hc => ?_, fun e hc => ?_⟩ <;> simp [handleAlert, httpError, *]

theorem handleAlert_client_errors_no_downstream_witness :
    handleAlert "GET" "ops" (.ok zeroPayload) "0s" (.error "down")
      = { statusCode := 405, body := "Method Not Allowed\n", sent := none }
    ∧ handleAlert "POST" "" (.ok zeroPayload) "0s" (.error "down")
      = { statusCode := 400, body := "channel query parameter is required\n", sent := none }
    ∧ handleAlert "POST" "ops" (.error "unexpected EOF") "0s" (.error "down")
      = { statusCode := 400, body := "unexpected EOF\n", sent := none } :=
  ⟨(handleAlert_client_errors_no_downstream "GET" "ops" "0s" (.ok zeroPayload)
      (.error "down")).1 (by decide),
   (handleAlert_client_errors_no_downstream "GET" "" "0s" (.ok zeroPayload)
      (.error "down")).2.1 rfl,
   (handleAlert_client_errors_no_downstream "GET" "ops" "0s" (.ok zeroPayload)
      (.error "down")).2.2 "unexpected EOF" (by decide)⟩

/-- C4: the color mapping is total — red for "firing", green for "resolved",
the neutral fallback for every other string including the empty one. -/
theorem setColor_total_mapping (s : String)
    (h1 : s ≠ "firing") (h2 : s ≠ "resolved") :
    setColor "firing" = "#FF0000" ∧ setColor "resolved" = "#008000"
    ∧ setColor s = "#F0F8FF" ∧ setColor "" = "#F0F8FF" := by
  refine ⟨rfl, rfl, ?_, rfl⟩
  simp [setColor, h1, h2, colorExpired]

theorem setColor_total_mapping_witness :
    setColor "firing" = "#FF0000" ∧ setColor "resolved" = "#008000"
    ∧ setColor "expired" = "#F0F8FF" ∧ setColor "" = "#F0F8FF" :=
  setColor_total_mapping "expired" (by decide) (by decide)

/-- C10: the method check precedes the channel check, which precedes body
decoding — a non-POST with a missing channel gets 405, a POST with a missing
channel gets the channel 400 whatever the body decoded to. -/
theorem handleAlert_validation_order
    (ago : String) (decoded : Except String AlertmanagerPayload)
    (downstream : Except String HttpResponse) :
    (∀ method, method ≠ "POST" →
      handleAlert method "" decoded ago downstream
        = { statusCode := 405, body := "Method Not Allowed\n", sent := none })
    ∧ handleAlert "POST" "" decoded ago downstream
        = { statusCode := 400, body := "channel query parameter is required\n", sent := none } := by
  constructor
  · intro method hm
    simp [handleAlert, httpError, hm]
  · simp [handleAlert, httpError]

theorem handleAlert_validation_order_witness :
    handleAlert "GET" "" (.error "invalid character") "0s"
        (.ok { statusCode := 200, status := "200 OK" })
      = { statusCode := 405, body := "Method Not Allowed\n", sent := none }
    ∧ handleAlert "POST" "" (.ok samplePayload) "0s"
        (.ok { statusCode := 200, status := "200 OK" })
      = { statusCode := 400, body := "channel query parameter is required\n", sent := none } :=
  ⟨(handleAlert_validation_order "0s" (.error "invalid character")
      (.ok { statusCode := 200, status := "200 OK" })).1 "GET" (by decide),
   (handleAlert_validation_order "0s" (.ok samplePayload)
      (.ok { statusCode := 200, status := "200 OK" })).2⟩


theorem alertAttachment_congr (externalURL receiver ago : String) {a b : Alert}
    (h : alertsAgreeUpToAnnotationOrder a b) :
    alertAttachment externalURL receiver ago a = alertAttachment externalURL receiver ago b := by
  obtain ⟨hs, hl, nd, pp, h1, h2, h3, h4⟩ := h
  have hb : b = { a with annotations := b.annotations } := by
    cases a
    cases b
    simp_all
  rw [hb]
  unfold alertAttachment
  rw [convertAlertToFields_annotations_perm a b.annotations nd (hb ▸ pp) externalURL receiver ago]

theorem map_alertAttachment_congr (externalURL receiver ago : String) :
    ∀ {as bs : List Alert}, List.Forall₂ alertsAgreeUpToAnnotationOrder as bs →
      as.map (alertAttachment externalURL receiver ago)
        = bs.map (alertAttachment externalURL receiver ago) := by
  intro as bs h
  induction h with
  | nil => rfl
  | cons hab _ ih => simp only [List.map_cons, ih, alertAttachment_congr _ _ _ hab]

/-- C5: the annotation lines of the primary field appear in strictly
ascending key order, are exactly the sorted-key lines, and the formatted
fields are invariant under the annotation map's enumeration order. -/
theorem annotation_lines_sorted_and_order_independent
    (alert : Alert) (externalURL receiver ago : String)
    (nd : (List.map Prod.fst alert.annotations).Nodup) :
    List.Sorted (· < ·) (sortedAnnotationKeys alert)
    ∧ ((convertAlertToFields alert externalURL receiver ago).head?.map Field.value)
        = some (concatStrings ((sortedAnnotationKeys alert).map (annotationLine alert))
            ++ startedLine alert ago
            ++ (if alert.status = "resolved" then endedLine alert ago else "")
            ++ sourceSentence alert externalURL receiver)
    ∧ ∀ anns₂ : List (String × String), alert.annotations.Perm anns₂ →
        convertAlertToFields { alert with annotations := anns₂ } externalURL receiver ago
          = convertAlertToFields alert externalURL receiver ago := by
  refine ⟨sortedAnnotationKeys_sorted_lt alert nd, ?_,
    fun anns₂ p => convertAlertToFields_annotations_perm alert anns₂ nd p externalURL receiver ago⟩
  rw [convertAlertToFields_eq]
  rfl

theorem annotation_lines_sorted_and_order_independent_witness :
    List.Sorted (· < ·) (sortedAnnotationKeys twoAnnotationsAlert)
    ∧ convertAlertToFields twoAnnotationsAlertSwapped "e" "r" "0s"
        = convertAlertToFields twoAnnotationsAlert "e" "r" "0s" :=
  ⟨(annotation_lines_sorted_and_order_independent twoAnnotationsAlert "e" "r" "0s" (by decide)).1,
   (annotation_lines_sorted_and_order_independent twoAnnotationsAlert "e" "r" "0s" (by decide)).2.2
     [("a", "1"), ("b", "2")] (by decide)⟩

/-- C6: the primary field's title is the uppercased status, wrapped in fire
indicators exactly when the status is "firing"; its value always carries the
"Started at" line and carries the "Ended at" line exactly when the status is
"resolved". -/
theorem primary_field_title_and_timeline (alert : Alert) (externalURL receiver ago : String) :
    ((convertAlertToFields alert externalURL receiver ago).head?.map Field.title
      = some (if alert.status = "firing"
          then ":fire: " ++ toUpperString alert.status ++ " :fire:"
          else toUpperString alert.status))
    ∧ ((convertAlertToFields alert externalURL receiver ago).head?.map Field.value
      = some (annotationsBlock alert ++ startedLine alert ago
          ++ (if alert.status = "resolved" then endedLine alert ago else "")
          ++ sourceSentence alert externalURL receiver)) := by
  rw [convertAlertToFields_eq]
  exact ⟨rfl, rfl⟩

set_option maxRecDepth 10000

/-- C7 counterexample: one notification, two valid enumerations of the same
two-entry label map (Go's map iteration order is not fixed), two different
JSON byte strings — formatting twice is not guaranteed byte-identical. -/
theorem formatting_json_depends_on_label_order :
    twoLabelAlertAB.labels.Perm twoLabelAlertBA.labels
    ∧ (List.map Prod.fst twoLabelAlertAB.labels).Nodup
    ∧ mattermostMessageToJson (prepareMessage twoLabelPayloadAB "ops" "0 seconds")
        ≠ mattermostMessageToJson (prepareMessage twoLabelPayloadBA "ops" "0 seconds") := by
  refine ⟨by decide, by decide, by decide⟩

/-- C7 (amended): the formatted JSON is a function of the payload and the
label enumeration orders alone — two runs agreeing on each alert's label
enumeration yield byte-identical JSON even if their annotation enumerations
differ. -/
theorem formatting_json_independent_of_annotation_order
    (p q : AlertmanagerPayload) (channel ago : String)
    (h : payloadsAgreeUpToAnnotationOrder p q) :
    mattermostMessageToJson (prepareMessage p channel ago)
      = mattermostMessageToJson (prepareMessage q channel ago) := by
  apply congrArg
  obtain ⟨hr, he, hall⟩ := h
  rw [prepareMessage_eq, prepareMessage_eq, hr, he,
    map_alertAttachment_congr q.externalURL q.receiver ago hall]

theorem formatting_json_independent_of_annotation_order_witness :
    mattermostMessageToJson (prepareMessage twoAnnotationsPayload "ops" "0s")
      = mattermostMessageToJson (prepareMessage twoAnnotationsPayloadSwapped "ops" "0s") :=
  formatting_json_independent_of_annotation_order twoAnnotationsPayload
    twoAnnotationsPayloadSwapped "ops" "0s"
    ⟨rfl, rfl, List.Forall₂.cons
      ⟨rfl, rfl, by decide, by decide, rfl, rfl, rfl, rfl⟩ List.Forall₂.nil⟩


/-- C8: on a valid request exactly one outbound POST is made, carrying the
fixed username and icon, the request's channel verbatim, and the ordered
per-alert attachments. -/
theorem handleAlert_valid_request_sends_once
    (method channel ago : String) (payload : AlertmanagerPayload)
    (downstream : Except String HttpResponse)
    (hm : method = "POST") (hc : channel ≠ "") :
    (handleAlert method channel (.ok payload) ago downstream).sent
        = some (prepareMessage payload channel ago)
    ∧ (prepareMessage payload channel ago).username = "alertmatter"
    ∧ (prepareMessage payload channel ago).iconEmoji = ":bell:"
    ∧ (prepareMessage payload channel ago).channel = channel
    ∧ (prepareMessage payload channel ago).text = ""
    ∧ (prepareMessage payload channel ago).attachments
        = payload.alerts.map (alertAttachment payload.externalURL payload.receiver ago) := by
  subst hm
  refine ⟨?_, rfl, rfl, rfl, rfl, by rw [prepareMessage_eq]⟩
  cases h : sendToMattermost (prepareMessage payload channel ago) downstream <;>
    simp [handleAlert, hc, h]

theorem handleAlert_valid_request_sends_once_witness :
    (handleAlert "POST" "ops" (.ok samplePayload) "0s"
        (.ok { statusCode := 200, status := "200 OK" })).sent
      = some (prepareMessage samplePayload "ops" "0s")
    ∧ (prepareMessage samplePayload "ops" "0s").username = "alertmatter"
    ∧ (prepareMessage samplePayload "ops" "0s").iconEmoji = ":bell:"
    ∧ (prepareMessage samplePayload "ops" "0s").channel = "ops"
    ∧ (prepareMessage samplePayload "ops" "0s").text = ""
    ∧ (prepareMessage samplePayload "ops" "0s").attachments
        = samplePayload.alerts.map
            (alertAttachment samplePayload.externalURL samplePayload.receiver "0s") :=
  handleAlert_valid_request_sends_once "POST" "ops" "0s" samplePayload
    (.ok { statusCode := 200, status := "200 OK" }) rfl (by decide)

theorem setPayloadField_unknown (p : AlertmanagerPayload) (k : String) (v : Json)
    (hk : ∀ tag ∈ payloadTags, tagMatch k tag = false) :
    setPayloadField p k v = .ok p := by
  unfold setPayloadField
  rw [hk "receiver" (by simp [payloadTags]), hk "status" (by simp [payloadTags]),
    hk "alerts" (by simp [payloadTags]), hk "groupLabels" (by simp [payloadTags]),
    hk "commonLabels" (by simp [payloadTags]), hk "commonAnnotations" (by simp [payloadTags]),
    hk "externalURL" (by simp [payloadTags]), hk "version" (by simp [payloadTags]),
    hk "groupKey" (by simp [payloadTags]), hk "truncatedAlerts" (by simp [payloadTags])]
  rfl

theorem decodeAlertmanagerPayload_unknown_members (members : List (String × Json))
    (h : ∀ kv ∈ members, ∀ tag ∈ payloadTags, tagMatch kv.1 tag = false) :
    decodeAlertmanagerPayload (Json.obj members) = .ok zeroPayload := by
  show members.foldlM (fun p kv => setPayloadField p kv.1 kv.2) zeroPayload = .ok zeroPayload
  induction members with
  | nil => rfl
  | cons kv t ih =>
    rw [List.foldlM_cons, setPayloadField_unknown _ _ _ (h kv (List.mem_cons_self _ _))]
    exact ih fun kv' hkv' => h kv' (List.mem_cons_of_mem _ hkv')

/-- C9: a POST with a non-empty channel and body `null` (or an object none
of whose keys selects a payload field) decodes to the zero payload, a
message with zero attachments is forwarded, and on downstream success the
handler responds 200. -/
theorem handleAlert_null_body_accepted
    (channel ago : String) (hc : channel ≠ "") (resp : HttpResponse)
    (h200 : resp.statusCode = 200) :
    decodeAlertmanagerPayload Json.null = .ok zeroPayload
    ∧ decodeAlertmanagerPayload (Json.obj []) = .ok zeroPayload
    ∧ (∀ members : List (String × Json),
        (∀ kv ∈ members, ∀ tag ∈ payloadTags, tagMatch kv.1 tag = false) →
        decodeAlertmanagerPayload (Json.obj members) = .ok zeroPayload)
    ∧ (prepareMessage zeroPayload channel ago).attachments = []
    ∧ handleAlert "POST" channel (decodeAlertmanagerPayload Json.null) ago (.ok resp)
        = { statusCode := 200, body := "",
            sent := some (prepareMessage zeroPayload channel ago) } := by
  refine ⟨rfl, rfl, decodeAlertmanagerPayload_unknown_members, by rw [prepareMessage_eq]; rfl, ?_⟩
  simp [handleAlert, hc, sendToMattermost, h200, decodeAlertmanagerPayload]

theorem handleAlert_null_body_accepted_witness :
    decodeAlertmanagerPayload Json.null = .ok zeroPayload
    ∧ handleAlert "POST" "ops" (decodeAlertmanagerPayload Json.null) "0s"
        (.ok { statusCode := 200, status := "200 OK" })
      = { statusCode := 200, body := "",
          sent := some (prepareMessage zeroPayload "ops" "0s") } :=
  ⟨(handleAlert_null_body_accepted "ops" "0s" (by decide)
      { statusCode := 200, status := "200 OK" } rfl).1,
   (handleAlert_null_body_accepted "ops" "0s" (by decide)
      { statusCode := 200, status := "200 OK" } rfl).2.2.2.2⟩

end Alertmatter
